import Mathlib

/-!
Shallow embedding of the agent-assignment subsystem of the aicc-back
contact-center API: the selector `assignAgentByLeastConnections`
(src/utils/assignAgent.js) and the case-creation handler `POST /cases`
(src/routes/cases.js), over an explicit store of agent and case rows.
The case status-update rule of `PATCH /cases/:case_id` is embedded as far
as the claims need it (the terminal "closed" status and `closed_at`).
-/

namespace AiccBack

/-- A JavaScript value as it can appear in a JSON request-body field:
absent (`undefined`), `null`, a number, or a string.  Truthiness below
follows JavaScript's coercion rules for these shapes. -/
inductive JSVal where
  | undef
  | null
  | num (n : Int)
  | str (s : String)
deriving Repr, DecidableEq

/-- JavaScript truthiness of a `JSVal`: `undefined`, `null`, `0` and the
empty string are falsy; every other number or string is truthy. -/
def JSVal.truthy : JSVal → Bool
  | .undef => false
  | .null => false
  | .num n => n != 0
  | .str s => s != ""

/-- A row of the `agents` table, restricted to the columns the
assignment subsystem reads: the primary key `agent_id` and the
availability flag `is_online`. -/
structure Agent where
  agent_id : Nat
  is_online : Bool
deriving Repr, DecidableEq

/-- A row of the `cases` table, restricted to the columns the subsystem
reads or writes.  The payload-derived columns keep the JavaScript value
the handler passed through; `status` is a string from the case lifecycle
vocabulary; timestamps are abstract ticks. -/
structure Case where
  case_id : Nat
  customer_id : JSVal
  agent_id : Nat
  title : JSVal
  category : JSVal
  content : JSVal
  order_id : JSVal
  status : String
  created_at : Nat
  closed_at : Option Nat
deriving Repr, DecidableEq

/-- The database state the subsystem touches: the `agents` and `cases`
tables as row lists. -/
structure Store where
  agents : List Agent
  cases : List Case
deriving Repr, DecidableEq

/-- The aggregate the selector's SQL computes per agent:
`COUNT(c.case_id)` over `LEFT JOIN cases c ON a.agent_id = c.agent_id
AND c.status != '완료'` (src/utils/assignAgent.js line 18) — the number
of this agent's cases whose status differs from the literal `'완료'`.
An agent with no matching case rows counts 0 (LEFT JOIN). -/
def activeCases (s : Store) (aid : Nat) : Nat :=
  (s.cases.filter (fun c => c.agent_id == aid && c.status != "완료")).length

/-- The grouped rows the selector's SQL produces before `ORDER BY`:
one `(agent_id, active_cases)` pair per agent with `is_online = true`
(src/utils/assignAgent.js lines 12-22; `agent_id` is the primary key,
so grouping by it yields one row per agent). -/
def onlineRows (s : Store) : List (Nat × Nat) :=
  (s.agents.filter (fun a => a.is_online)).map
    (fun a => (a.agent_id, activeCases s a.agent_id))

/-- Admissible result of `ORDER BY active_cases ASC LIMIT 1` followed by
the row check of src/utils/assignAgent.js lines 30-34: with no rows the
function returns `null` (`none`); otherwise it returns the `agent_id` of
some row whose `active_cases` is minimal.  SQL specifies no order among
rows with equal sort keys, so the result is a relation: every minimal
row is admissible. -/
def leastRow (rows : List (Nat × Nat)) (r : Option Nat) : Bool :=
  if rows.isEmpty then r == none
  else rows.any (fun p => r == some p.1 && rows.all (fun q => decide (p.2 ≤ q.2)))

/-- `assignAgentByLeastConnections()` (src/utils/assignAgent.js lines
9-39) as a result relation: `true` iff `r` is an admissible return value
of the function on store `s`. -/
def assignAgentByLeastConnections (s : Store) (r : Option Nat) : Bool :=
  leastRow (onlineRows s) r

/-- The SQL statements the assignment subsystem sends through
`pool.query`: the selector's SELECT and the handler's INSERT. -/
inductive SqlStmt where
  | selectLeastConnections
  | insertCase (c : Case)
deriving Repr, DecidableEq

/-- Effect of executing a statement on the store: a SELECT reads only;
the INSERT of src/routes/cases.js lines 149-153 appends exactly one new
case row. -/
def execStmt : SqlStmt → Store → Store
  | .selectLeastConnections, s => s
  | .insertCase c, s => { s with cases := s.cases ++ [c] }

/-- A full run of `assignAgentByLeastConnections()`: the function issues
exactly one `pool.query` with its SELECT (src/utils/assignAgent.js line
28) and returns `r`; `s'` is the store afterwards. -/
def assignAgentRun (s : Store) (r : Option Nat) (s' : Store) : Prop :=
  assignAgentByLeastConnections s r = true ∧ s' = execStmt .selectLeastConnections s

/-- The request body of `POST /cases` as destructured at
src/routes/cases.js line 133: each field is whatever JavaScript value
the JSON body carried (or `undefined` when absent). -/
structure Payload where
  customer_id : JSVal
  title : JSVal
  category : JSVal
  content : JSVal
  order_id : JSVal
deriving Repr, DecidableEq

/-- The validation check of src/routes/cases.js line 135:
`!customer_id || !title || !category || !content` rejects; the payload
is valid when all four required fields are truthy.  `order_id` is not
checked. -/
def validPayload (p : Payload) : Bool :=
  p.customer_id.truthy && p.title.truthy && p.category.truthy && p.content.truthy

/-- A field that is absent from the body, JSON `null`, or the empty
string — the "missing or empty" shapes of a required field. -/
def missingOrEmpty (v : JSVal) : Bool :=
  decide (v = .undef) || decide (v = .null) || decide (v = .str "")

/-- The outcomes `POST /cases` can produce: HTTP 400 validation error,
HTTP 503 no-capacity, HTTP 201 with the created row, HTTP 500 internal
error (src/routes/cases.js lines 136-168). -/
inductive PostOutcome where
  | validationError
  | noCapacity
  | created (c : Case)
  | internalError
deriving Repr, DecidableEq

/-- HTTP status code of each outcome (src/routes/cases.js lines 137,
144, 159, 168). -/
def PostOutcome.httpStatus : PostOutcome → Nat
  | .validationError => 400
  | .noCapacity => 503
  | .created _ => 201
  | .internalError => 500

/-- The row the INSERT of src/routes/cases.js lines 149-154 creates:
payload fields passed through as `$1..$6`, `status` the literal `'대기'`,
`created_at` `NOW()`, `closed_at` absent (null); `case_id` is the
store-generated key. -/
def newCaseRow (p : Payload) (aid : Nat) (now newId : Nat) : Case :=
  { case_id := newId
    customer_id := p.customer_id
    agent_id := aid
    title := p.title
    category := p.category
    content := p.content
    order_id := p.order_id
    status := "대기"
    created_at := now
    closed_at := none }

/-- One run of the `POST /cases` handler (src/routes/cases.js lines
132-170), with `r` the value the awaited selector call produced, `now`
the clock, `newId` the store-generated case id: `true` iff the run ends
with outcome `out` and post-store `s'`.  The handler first validates,
then calls the selector, treats a falsy result (`null` or `0`, line 143:
`if (!agentIdToAssign)`) as no capacity, and otherwise executes the
INSERT and returns the created row. -/
def postCases (p : Payload) (s : Store) (now newId : Nat) (r : Option Nat)
    (out : PostOutcome) (s' : Store) : Bool :=
  if !(validPayload p) then
    decide (out = .validationError) && decide (s' = s)
  else
    assignAgentByLeastConnections s r &&
    match r with
    | none => decide (out = .noCapacity) && decide (s' = s)
    | some aid =>
      if aid == 0 then decide (out = .noCapacity) && decide (s' = s)
      else
        decide (out = .created (newCaseRow p aid now newId)) &&
        decide (s' = execStmt (.insertCase (newCaseRow p aid now newId)) s)

/-- Case statuses `PATCH /cases/:case_id` accepts (src/routes/cases.js
line 412): waiting, consulting, closed.  `'종료'` is the terminal status:
it is the one whose arrival sets `closed_at` (lines 422-428). -/
def allowedCaseStatuses : List String := ["대기", "상담", "종료"]

/-- The `closed_at` CASE expression of the PATCH SQL (src/routes/cases.js
lines 422-428): moving to `'종료'` from another status stamps `NOW()`;
moving to `'대기'` or `'상담'` clears it; otherwise it is kept. -/
def patchClosedAt (newStatus oldStatus : String) (oldClosedAt : Option Nat)
    (now : Nat) : Option Nat :=
  if newStatus == "종료" && oldStatus != "종료" then some now
  else if newStatus == "대기" || newStatus == "상담" then none
  else oldClosedAt

/-- Effect on the store of a `PATCH /cases/:case_id` run that updates
`status` (src/routes/cases.js lines 407-461): the matching row's status
is replaced and its `closed_at` follows `patchClosedAt`. -/
def patchStatus (s : Store) (cid : Nat) (newStatus : String) (now : Nat) : Store :=
  { s with cases := s.cases.map (fun c =>
      if c.case_id == cid then
        { c with status := newStatus
                 closed_at := patchClosedAt newStatus c.status c.closed_at now }
      else c) }

/-- Modelled from the spec: the active-case count the specification
defines — for an agent, the number of its cases whose status is not the
terminal "closed" state.  The terminal state of the case lifecycle is
`'종료'`: it is the status `PATCH /cases/:case_id` stamps `closed_at` for.
This definition exists to be compared with `activeCases`, the count the
source actually computes. -/
def specActiveCases (s : Store) (aid : Nat) : Nat :=
  (s.cases.filter (fun c => c.agent_id == aid && c.status != "종료")).length

/-! ### Helper lemmas about the selector -/

/-- Membership in the grouped rows: a row is exactly an online agent of
the store paired with its computed load. -/
theorem mem_onlineRows_iff (s : Store) (p : Nat × Nat) :
    p ∈ onlineRows s ↔
      ∃ a ∈ s.agents, a.is_online = true ∧ p = (a.agent_id, activeCases s a.agent_id) := by
  unfold onlineRows
  constructor
  · intro h
    rcases List.mem_map.mp h with ⟨a, ha, hpa⟩
    rcases List.mem_filter.mp ha with ⟨ha1, ha2⟩
    exact ⟨a, ha1, ha2, hpa.symm⟩
  · rintro ⟨a, ha, hon, rfl⟩
    exact List.mem_map_of_mem _ (List.mem_filter.mpr ⟨ha, hon⟩)

/-- When every agent is offline the grouped row list is empty. -/
theorem onlineRows_eq_nil_of_offline (s : Store)
    (hoff : ∀ a ∈ s.agents, a.is_online = false) : onlineRows s = [] := by
  unfold onlineRows
  have h : s.agents.filter (fun a => a.is_online) = [] := by
    rw [List.filter_eq_nil_iff]
    intro a ha
    simp [hoff a ha]
  rw [h]
  rfl

/-- Destructor for an admissible selector result: either there were no
rows and the result is `none`, or the result is the agent id of a
minimal row. -/
theorem assign_spec (s : Store) (r : Option Nat)
    (h : assignAgentByLeastConnections s r = true) :
    (onlineRows s = [] ∧ r = none) ∨
      ∃ p ∈ onlineRows s, r = some p.1 ∧ ∀ q ∈ onlineRows s, p.2 ≤ q.2 := by
  unfold assignAgentByLeastConnections leastRow at h
  by_cases hem : (onlineRows s).isEmpty = true
  · rw [if_pos hem] at h
    exact Or.inl ⟨List.isEmpty_iff.mp hem, by simpa using h⟩
  · rw [if_neg hem] at h
    simp only [List.any_eq_true, Bool.and_eq_true, beq_iff_eq, List.all_eq_true,
      decide_eq_true_eq] at h
    rcases h with ⟨p, hp, hr, hmin⟩
    exact Or.inr ⟨p, hp, hr, hmin⟩

/-! ### Concrete stores used to instantiate the theorems -/

/-- One online agent (id 1) and one offline agent (id 2), no cases. -/
def c1Store : Store :=
  { agents := [{ agent_id := 1, is_online := true }, { agent_id := 2, is_online := false }]
    cases := [] }

/-- A single offline agent. -/
def c3Store : Store :=
  { agents := [{ agent_id := 1, is_online := false }], cases := [] }

/-- Two online agents with equal (zero) load: a tie. -/
def tieStore : Store :=
  { agents := [{ agent_id := 1, is_online := true }, { agent_id := 2, is_online := true }]
    cases := [] }

/-- Two online agents, agent 2 carrying one open case: a unique minimum
at agent 1. -/
def c4Store : Store :=
  { agents := [{ agent_id := 1, is_online := true }, { agent_id := 2, is_online := true }]
    cases := [{ case_id := 10, customer_id := .num 1, agent_id := 2, title := .str "t",
                category := .str "c", content := .str "x", order_id := .null,
                status := "상담", created_at := 0, closed_at := none }] }

/-! ### Claim theorems -/

/-- C1: whenever at least one agent is online, every admissible return
value of `assignAgentByLeastConnections` is the id of an online agent
whose computed active-case count is minimal among all online agents;
offline agents are never returned (the returned id is an online agent's),
and an online agent with no cases participates with count 0 (it has a
row in `onlineRows` with load `activeCases = 0`). -/
theorem selector_returns_minimal_online_agent (s : Store) (r : Option Nat)
    (hon : ∃ a ∈ s.agents, a.is_online = true)
    (hr : assignAgentByLeastConnections s r = true) :
    ∃ a ∈ s.agents, a.is_online = true ∧ r = some a.agent_id ∧
      ∀ b ∈ s.agents, b.is_online = true →
        activeCases s a.agent_id ≤ activeCases s b.agent_id := by
  rcases assign_spec s r hr with ⟨hnil, _⟩ | ⟨p, hp, hr', hmin⟩
  · rcases hon with ⟨a, ha, haon⟩
    have hmem : (a.agent_id, activeCases s a.agent_id) ∈ onlineRows s :=
      (mem_onlineRows_iff s _).mpr ⟨a, ha, haon, rfl⟩
    rw [hnil] at hmem
    exact absurd hmem (List.not_mem_nil _)
  · rcases (mem_onlineRows_iff s p).mp hp with ⟨a, ha, haon, hpa⟩
    subst hpa
    refine ⟨a, ha, haon, hr', ?_⟩
    intro b hb hbon
    exact hmin _ ((mem_onlineRows_iff s _).mpr ⟨b, hb, hbon, rfl⟩)

/-- Witness for C1 on `c1Store`: the selector returns agent 1. -/
theorem selector_returns_minimal_online_agent_witness :
    ∃ a ∈ c1Store.agents, a.is_online = true ∧ (some 1 : Option Nat) = some a.agent_id ∧
      ∀ b ∈ c1Store.agents, b.is_online = true →
        activeCases c1Store a.agent_id ≤ activeCases c1Store b.agent_id :=
  selector_returns_minimal_online_agent c1Store (some 1) (by decide) (by decide)

/-- C3: when no agent is online, the only admissible return value of
`assignAgentByLeastConnections` is the sentinel `none` (`null`). -/
theorem selector_none_when_all_offline (s : Store) (r : Option Nat)
    (hoff : ∀ a ∈ s.agents, a.is_online = false)
    (hr : assignAgentByLeastConnections s r = true) : r = none := by
  rcases assign_spec s r hr with ⟨_, hrn⟩ | ⟨p, hp, _, _⟩
  · exact hrn
  · rcases (mem_onlineRows_iff s p).mp hp with ⟨a, ha, haon, _⟩
    rw [hoff a ha] at haon
    simp at haon

/-- Witness for C3 on `c3Store`: the selector returns `none`. -/
theorem selector_none_when_all_offline_witness : (none : Option Nat) = none :=
  selector_none_when_all_offline c3Store none (by decide) (by decide)

/-- C4 counterexample: on a store where agents 1 and 2 are both online
with equal load, both `some 1` and `some 2` are admissible results of
the selector's SQL — `ORDER BY active_cases ASC LIMIT 1` has no
tie-break key, so the choice among tied minima is not determined by the
store state and repeated calls need not agree. -/
theorem selector_tie_not_deterministic :
    assignAgentByLeastConnections tieStore (some 1) = true ∧
    assignAgentByLeastConnections tieStore (some 2) = true ∧
    (some 1 : Option Nat) ≠ some 2 := by decide

/-- C4 amended: the selector is deterministic exactly up to ties — when
all minimal rows of a store carry the same agent id (in particular when
the minimum is uniquely attained), any two admissible results of calls
against the identical state are equal. -/
theorem selector_deterministic_on_unique_minimum (s : Store) (r1 r2 : Option Nat)
    (huniq : ∀ p ∈ onlineRows s, ∀ q ∈ onlineRows s,
      (∀ u ∈ onlineRows s, p.2 ≤ u.2) → (∀ u ∈ onlineRows s, q.2 ≤ u.2) → p.1 = q.1)
    (h1 : assignAgentByLeastConnections s r1 = true)
    (h2 : assignAgentByLeastConnections s r2 = true) : r1 = r2 := by
  rcases assign_spec s r1 h1 with ⟨hnil1, hr1⟩ | ⟨p, hp, hr1, hmin1⟩ <;>
    rcases assign_spec s r2 h2 with ⟨hnil2, hr2⟩ | ⟨q, hq, hr2, hmin2⟩
  · rw [hr1, hr2]
  · rw [hnil1] at hq
    exact absurd hq (List.not_mem_nil _)
  · rw [hnil2] at hp
    exact absurd hp (List.not_mem_nil _)
  · rw [hr1, hr2, huniq p hp q hq hmin1 hmin2]

/-- Witness for the amended C4 on `c4Store`: agent 1 uniquely minimal. -/
theorem selector_deterministic_on_unique_minimum_witness :
    (some 1 : Option Nat) = some 1 :=
  selector_deterministic_on_unique_minimum c4Store (some 1) (some 1)
    (by decide) (by decide) (by decide)

/-- C8: a run of `assignAgentByLeastConnections` leaves both tables of
the store unchanged — the single statement it executes is a SELECT. -/
theorem selector_store_unchanged (s : Store) (r : Option Nat) (s' : Store)
    (hrun : assignAgentRun s r s') : s'.agents = s.agents ∧ s'.cases = s.cases := by
  rcases hrun with ⟨_, rfl⟩
  exact ⟨rfl, rfl⟩

/-- Witness for C8 on `c1Store`. -/
theorem selector_store_unchanged_witness :
    c1Store.agents = c1Store.agents ∧ c1Store.cases = c1Store.cases :=
  selector_store_unchanged c1Store (some 1) c1Store ⟨by decide, rfl⟩

/-- Truthiness fails on every missing-or-empty field shape. -/
theorem truthy_false_of_missingOrEmpty (v : JSVal) (h : missingOrEmpty v = true) :
    v.truthy = false := by
  cases v <;> simp_all [missingOrEmpty, JSVal.truthy]

/-! ### The C2 scenario: a case closed through PATCH still counts -/

/-- Agent 1 online with one in-progress case (status `'상담'`). -/
def c2Store0 : Store :=
  { agents := [{ agent_id := 1, is_online := true }]
    cases := [{ case_id := 10, customer_id := .num 1, agent_id := 1, title := .str "t",
                category := .str "c", content := .str "x", order_id := .null,
                status := "상담", created_at := 0, closed_at := none }] }

/-- `c2Store0` after `PATCH /cases/10` sets `status` to `'종료'` at time 5:
the case is closed (terminal status, `closed_at` stamped). -/
def c2Store1 : Store := patchStatus c2Store0 10 "종료" 5

/-- C2: the count the selector actually uses diverges from the
specified one.  After case 10 is closed through the PATCH route (its
status is the terminal `'종료'` and `closed_at` is stamped), the
selector's `activeCases` still counts it — the SQL filters out only the
literal `'완료'`, a status the case lifecycle never produces — while the
specified count `specActiveCases` (cases not in the terminal status)
is 0. -/
theorem closed_case_still_counted :
    c2Store1.cases.map Case.status = ["종료"] ∧
    c2Store1.cases.map Case.closed_at = [some 5] ∧
    "종료" ∈ allowedCaseStatuses ∧
    activeCases c2Store1 1 = 1 ∧
    specActiveCases c2Store1 1 = 0 ∧
    activeCases c2Store1 1 ≠ specActiveCases c2Store1 1 := by decide

/-! ### Theorems about the POST /cases handler -/

/-- C5: on a valid payload, with all agent ids positive (they are
store-generated serial keys) and at least one agent online, a run of
the handler creates exactly one new case row — appended to the case
table, with status `'대기'`, `closed_at` null, `created_at` the current
time and `agent_id` an admissible selector result on the pre-insert
store — and returns that row; the agent table is untouched. -/
theorem post_cases_success_inserts_one_waiting_case (p : Payload) (s : Store)
    (now newId : Nat) (r : Option Nat) (out : PostOutcome) (s' : Store)
    (hvalid : validPayload p = true)
    (hpos : ∀ a ∈ s.agents, 0 < a.agent_id)
    (hon : ∃ a ∈ s.agents, a.is_online = true)
    (hrun : postCases p s now newId r out s' = true) :
    ∃ aid, r = some aid ∧ assignAgentByLeastConnections s (some aid) = true ∧
      out = .created (newCaseRow p aid now newId) ∧
      s'.cases = s.cases ++ [newCaseRow p aid now newId] ∧
      s'.agents = s.agents ∧
      (newCaseRow p aid now newId).status = "대기" ∧
      (newCaseRow p aid now newId).closed_at = none ∧
      (newCaseRow p aid now newId).created_at = now ∧
      (newCaseRow p aid now newId).agent_id = aid := by
  unfold postCases at hrun
  rw [hvalid] at hrun
  simp only [Bool.not_true, Bool.false_eq_true, if_false, Bool.and_eq_true] at hrun
  rcases hrun with ⟨hassign, hmatch⟩
  cases r with
  | none =>
    rcases assign_spec s none hassign with ⟨hnil, _⟩ | ⟨q, hq, hq', _⟩
    · rcases hon with ⟨a, ha, haon⟩
      have hmem : (a.agent_id, activeCases s a.agent_id) ∈ onlineRows s :=
        (mem_onlineRows_iff s _).mpr ⟨a, ha, haon, rfl⟩
      rw [hnil] at hmem
      exact absurd hmem (List.not_mem_nil _)
    · exact absurd hq' (by simp)
  | some aid =>
    have haid : aid ≠ 0 := by
      rcases assign_spec s (some aid) hassign with ⟨_, habs⟩ | ⟨q, hq, hq', _⟩
      · exact absurd habs (by simp)
      · rcases (mem_onlineRows_iff s q).mp hq with ⟨a, ha, _, hqa⟩
        have : aid = a.agent_id := by
          rw [hqa] at hq'
          exact Option.some_injective _ hq'
        rw [this]
        exact Nat.pos_iff_ne_zero.mp (hpos a ha)
    simp only [haid, beq_iff_eq, if_false, Bool.and_eq_true, decide_eq_true_eq,
      if_neg haid] at hmatch
    rcases hmatch with ⟨hout, hs⟩
    refine ⟨aid, rfl, hassign, hout, ?_, ?_, rfl, rfl, rfl, rfl⟩
    · rw [hs]
      rfl
    · rw [hs]
      rfl

/-- The valid payload used by the handler witnesses. -/
def okPayload : Payload :=
  { customer_id := .num 7, title := .str "환불 문의", category := .str "환불",
    content := .str "내용", order_id := .null }

/-- Witness for C5 on `c1Store` with `okPayload`: the run with selector
result `some 1` creates the new waiting case. -/
theorem post_cases_success_inserts_one_waiting_case_witness :
    ∃ aid, (some 1 : Option Nat) = some aid ∧
      assignAgentByLeastConnections c1Store (some aid) = true ∧
      PostOutcome.created (newCaseRow okPayload 1 7 42) =
        .created (newCaseRow okPayload aid 7 42) ∧
      (execStmt (.insertCase (newCaseRow okPayload 1 7 42)) c1Store).cases =
        c1Store.cases ++ [newCaseRow okPayload aid 7 42] ∧
      (execStmt (.insertCase (newCaseRow okPayload 1 7 42)) c1Store).agents =
        c1Store.agents ∧
      (newCaseRow okPayload aid 7 42).status = "대기" ∧
      (newCaseRow okPayload aid 7 42).closed_at = none ∧
      (newCaseRow okPayload aid 7 42).created_at = 7 ∧
      (newCaseRow okPayload aid 7 42).agent_id = aid :=
  post_cases_success_inserts_one_waiting_case okPayload c1Store 7 42 (some 1)
    (.created (newCaseRow okPayload 1 7 42))
    (execStmt (.insertCase (newCaseRow okPayload 1 7 42)) c1Store)
    (by decide) (by decide) (by decide) (by decide)

/-- C6: on a valid payload with every agent offline, a run of the
handler ends in the no-capacity outcome and leaves the store unchanged;
the outcome is distinguishable from the validation and internal
outcomes (distinct constructors, HTTP 503 vs 400 and 500). -/
theorem post_cases_no_capacity_when_all_offline (p : Payload) (s : Store)
    (now newId : Nat) (r : Option Nat) (out : PostOutcome) (s' : Store)
    (hvalid : validPayload p = true)
    (hoff : ∀ a ∈ s.agents, a.is_online = false)
    (hrun : postCases p s now newId r out s' = true) :
    out = .noCapacity ∧ s' = s ∧
      PostOutcome.noCapacity ≠ .validationError ∧
      PostOutcome.noCapacity ≠ .internalError ∧
      PostOutcome.noCapacity.httpStatus = 503 := by
  unfold postCases at hrun
  rw [hvalid] at hrun
  simp only [Bool.not_true, Bool.false_eq_true, if_false, Bool.and_eq_true] at hrun
  rcases hrun with ⟨hassign, hmatch⟩
  have hrnone : r = none := by
    rcases assign_spec s r hassign with ⟨_, hrn⟩ | ⟨q, hq, _, _⟩
    · exact hrn
    · rcases (mem_onlineRows_iff s q).mp hq with ⟨a, ha, haon, _⟩
      rw [hoff a ha] at haon
      simp at haon
  subst hrnone
  simp only [Bool.and_eq_true, decide_eq_true_eq] at hmatch
  exact ⟨hmatch.1, hmatch.2, by decide, by decide, by decide⟩

/-- Witness for C6 on `c3Store` with `okPayload`. -/
theorem post_cases_no_capacity_when_all_offline_witness :
    PostOutcome.noCapacity = .noCapacity ∧ c3Store = c3Store ∧
      PostOutcome.noCapacity ≠ .validationError ∧
      PostOutcome.noCapacity ≠ .internalError ∧
      PostOutcome.noCapacity.httpStatus = 503 :=
  post_cases_no_capacity_when_all_offline okPayload c3Store 7 42 none
    .noCapacity c3Store (by decide) (by decide) (by decide)

/-- C7: when any required field of the payload is missing (absent or
`null`) or empty, a run of the handler ends in the validation-error
outcome with the store unchanged — the handler's validation branch
returns before any statement reaches the store — and the check never
depends on `order_id`: replacing it with any value leaves the
validation verdict unchanged. -/
theorem post_cases_missing_field_validation_error (p : Payload) (s : Store)
    (now newId : Nat) (r : Option Nat) (out : PostOutcome) (s' : Store)
    (hmiss : (missingOrEmpty p.customer_id || missingOrEmpty p.title ||
              missingOrEmpty p.category || missingOrEmpty p.content) = true)
    (hrun : postCases p s now newId r out s' = true) :
    (out = .validationError ∧ s' = s) ∧
      ∀ v : JSVal, validPayload { p with order_id := v } = validPayload p := by
  have hinv : validPayload p = false := by
    simp only [Bool.or_eq_true] at hmiss
    rcases hmiss with ((h | h) | h) | h <;>
      simp [validPayload, truthy_false_of_missingOrEmpty _ h]
  unfold postCases at hrun
  rw [hinv] at hrun
  simp only [Bool.not_false, if_true, Bool.and_eq_true, decide_eq_true_eq] at hrun
  exact ⟨hrun, fun v => rfl⟩

/-- A payload whose required `title` field is absent. -/
def noTitlePayload : Payload :=
  { customer_id := .num 7, title := .undef, category := .str "환불",
    content := .str "내용", order_id := .null }

/-- Witness for C7 on `noTitlePayload` over `c1Store`. -/
theorem post_cases_missing_field_validation_error_witness :
    (PostOutcome.validationError = .validationError ∧ c1Store = c1Store) ∧
      ∀ v : JSVal, validPayload { noTitlePayload with order_id := v } =
        validPayload noTitlePayload :=
  post_cases_missing_field_validation_error noTitlePayload c1Store 7 42 none
    .validationError c1Store (by decide) (by decide)

/-- C9: the validation check tests JavaScript truthiness, so the
present, integer-typed value `0` in `customer_id` is rejected as a
validation error (store unchanged) exactly like an absent field. -/
theorem post_cases_zero_customer_id_rejected (p : Payload) (s : Store)
    (now newId : Nat) (r : Option Nat) (out : PostOutcome) (s' : Store)
    (hzero : p.customer_id = .num 0)
    (hrun : postCases p s now newId r out s' = true) :
    out = .validationError ∧ s' = s := by
  have hinv : validPayload p = false := by
    simp [validPayload, hzero, JSVal.truthy]
  unfold postCases at hrun
  rw [hinv] at hrun
  simp only [Bool.not_false, if_true, Bool.and_eq_true, decide_eq_true_eq] at hrun
  exact hrun

/-- A payload carrying the number 0 in `customer_id`, all other
required fields present and non-empty. -/
def zeroCustomerPayload : Payload :=
  { customer_id := .num 0, title := .str "환불 문의", category := .str "환불",
    content := .str "내용", order_id := .null }

/-- Witness for C9 on `zeroCustomerPayload` over `c1Store`. -/
theorem post_cases_zero_customer_id_rejected_witness :
    PostOutcome.validationError = .validationError ∧ c1Store = c1Store :=
  post_cases_zero_customer_id_rejected zeroCustomerPayload c1Store 7 42 none
    .validationError c1Store (by decide) (by decide)

/-- C10: the handler tests the selector's result for falsiness
(`if (!agentIdToAssign)`), so a run in which the selector returned the
agent id `0` ends in the no-capacity outcome with no case created, even
though `some 0` was an admissible (eligible-agent) selector result. -/
theorem post_cases_agent_id_zero_treated_as_no_capacity (p : Payload) (s : Store)
    (now newId : Nat) (out : PostOutcome) (s' : Store)
    (hvalid : validPayload p = true)
    (hrun : postCases p s now newId (some 0) out s' = true) :
    assignAgentByLeastConnections s (some 0) = true ∧
      out = .noCapacity ∧ s' = s := by
  unfold postCases at hrun
  rw [hvalid] at hrun
  simp only [Bool.not_true, Bool.false_eq_true, if_false, Bool.and_eq_true] at hrun
  rcases hrun with ⟨hassign, hmatch⟩
  simp only [Nat.zero_eq, beq_self_eq_true, if_true, Bool.and_eq_true,
    decide_eq_true_eq] at hmatch
  exact ⟨hassign, hmatch.1, hmatch.2⟩

/-- A store whose only agent has the id 0 and is online: the selector
must pick it, and the handler then reports no capacity. -/
def agentZeroStore : Store :=
  { agents := [{ agent_id := 0, is_online := true }], cases := [] }

/-- Witness for C10 on `agentZeroStore` with `okPayload`. -/
theorem post_cases_agent_id_zero_treated_as_no_capacity_witness :
    assignAgentByLeastConnections agentZeroStore (some 0) = true ∧
      PostOutcome.noCapacity = .noCapacity ∧ agentZeroStore = agentZeroStore :=
  post_cases_agent_id_zero_treated_as_no_capacity okPayload agentZeroStore 7 42
    .noCapacity agentZeroStore (by decide) (by decide)

end AiccBack
